import Mathlib

/-!
Verification of the international_market order/checkout/coupon core.

The definitions below are a shallow embedding of the Python sources
(`src/database.py`, `src/main.py`): Python floats are modelled as exact
rationals (`ℚ`), `datetime` values as integer timestamps, MongoDB
collections as Lean lists carried in an explicit `DB` state record, and
`update_one` / `find_one` / `find_one_and_update` as first-match list
operations.  Side-effecting Python code is modelled by explicit state
passing.  Python string methods (`strip`, `rstrip`, `upper`, `lower`)
are modelled by executable character-list functions below (ASCII case
mapping, the common whitespace characters).

Layout: all definitions first, then all theorems.
-/

namespace IntMarket

/-! ## String and numeric helpers -/

/-- Whitespace test used by the models of Python `str.strip` and
`str.rstrip`. -/
def isSpaceChar (c : Char) : Bool := c = ' ' || c = '\t' || c = '\n' || c = '\r'

/-- Python `s.strip()`. -/
def pyStrip (s : String) : String :=
  ⟨((s.data.dropWhile isSpaceChar).reverse.dropWhile isSpaceChar).reverse⟩

/-- Python `s.rstrip()`. -/
def pyRstrip (s : String) : String :=
  ⟨(s.data.reverse.dropWhile isSpaceChar).reverse⟩

/-- ASCII uppercase mapping for one character (model of Python
`str.upper` at character level). -/
def upChar (c : Char) : Char :=
  if 'a' ≤ c ∧ c ≤ 'z' then Char.ofNat (c.toNat - 32) else c

/-- ASCII lowercase mapping for one character. -/
def downChar (c : Char) : Char :=
  if 'A' ≤ c ∧ c ≤ 'Z' then Char.ofNat (c.toNat + 32) else c

/-- Python `s.upper()`. -/
def pyUpper (s : String) : String := ⟨s.data.map upChar⟩

/-- Python `s.lower()`. -/
def pyLower (s : String) : String := ⟨s.data.map downChar⟩

/-- Executable prefix test on strings (used in theorem statements to
express "the prior text is preserved verbatim at the front"). -/
def pyIsPrefix (p s : String) : Bool := p.data.isPrefixOf s.data

/-- Python `x or d` for strings: `None`/empty fall back to the default. -/
def pyStrOr (s d : String) : String := if s = "" then d else s

/-- Python `(x or d)` where `x` is an optional string field (absent,
`None` or empty string falls back to the default). -/
def pyOptStrOr (s : Option String) (d : String) : String :=
  match s with
  | none => d
  | some t => pyStrOr t d

/-- Python truthiness test `not x` for an optional string (absent, `None`
or empty string is falsy). -/
def pyFalsyOptStr : Option String → Bool
  | none => true
  | some s => s = ""

/-- Python `round(x)` (banker's rounding, half to even) over exact
rationals. -/
def roundHalfEven (x : ℚ) : ℤ :=
  if x - Int.floor x < 1/2 then Int.floor x
  else if 1/2 < x - Int.floor x then Int.floor x + 1
  else if Int.floor x % 2 = 0 then Int.floor x else Int.floor x + 1

/-- Python `round(x, 2)`: round to two decimal places. -/
def round2 (q : ℚ) : ℚ := (roundHalfEven (q * 100) : ℚ) / 100

/-- Python f-string formatting `f"{q:.2f}"` over exact rationals. -/
def fmtMoney2 (q : ℚ) : String :=
  let cents := roundHalfEven (q * 100)
  let sign := if cents < 0 then "-" else ""
  let a := cents.natAbs
  sign ++ toString (a / 100) ++ "." ++ (if a % 100 < 10 then "0" else "") ++ toString (a % 100)

/-- Models `datetime.strftime("%Y-%m-%d %H:%M UTC")`: an injective display
string for the integer timestamp. -/
def fmtStamp (now : Int) : String := toString now ++ " UTC"

/-! ## Totals calculator (`src/database.py`, `compute_totals`) -/

/-- `TAX_RATE_MD = 0.06` (`src/database.py`). -/
def TAX_RATE_MD : ℚ := 6 / 100

/-- The dict returned by `compute_totals`. -/
structure Totals where
  subtotal : ℚ
  discount_amount : ℚ
  discounted_subtotal : ℚ
  tax : ℚ
  total : ℚ
deriving Repr, DecidableEq

/-- `compute_totals(subtotal, discount_amount)` from `src/database.py`.
Note: the source function takes NO `shipping_fee` parameter and its
`total` does not include a shipping fee (even though the call sites in
`src/main.py` pass a `shipping_fee=` keyword argument). -/
def compute_totals (subtotal discount_amount : ℚ) : Totals :=
  let s := max 0 subtotal
  let d0 := max 0 discount_amount
  let d := if d0 > s then s else d0
  let discounted_subtotal := s - d
  let tax := discounted_subtotal * TAX_RATE_MD
  let total := discounted_subtotal + tax
  { subtotal := round2 s
    discount_amount := round2 d
    discounted_subtotal := round2 discounted_subtotal
    tax := round2 tax
    total := round2 total }

/-- The totals record described by the spec (§4.2), including the
shipping fee. -/
structure TotalsSpec where
  subtotal : ℚ
  discount_amount : ℚ
  discounted_subtotal : ℚ
  tax : ℚ
  shipping_fee : ℚ
  total : ℚ
deriving Repr, DecidableEq

/-- Modelled from the spec: `compute(subtotal, discount_amount,
shipping_fee)` of §4.2 — "clamp subtotal and discount_amount to ≥0; clamp
discount_amount ≤ subtotal; discounted_subtotal = subtotal −
discount_amount; tax = discounted_subtotal × fixed_tax_rate; total =
discounted_subtotal + tax + shipping_fee", all outputs rounded to two
decimals at the boundary.  The source `compute_totals` has no
`shipping_fee` parameter, so the spec's version is reproduced here for
comparison. -/
def compute_totals_spec (subtotal discount_amount shipping_fee : ℚ) : TotalsSpec :=
  let s := max 0 subtotal
  let d := min (max 0 discount_amount) s
  let discounted_subtotal := s - d
  let tax := discounted_subtotal * TAX_RATE_MD
  let total := discounted_subtotal + tax + shipping_fee
  { subtotal := round2 s
    discount_amount := round2 d
    discounted_subtotal := round2 discounted_subtotal
    tax := round2 tax
    shipping_fee := round2 shipping_fee
    total := round2 total }

/-! ## Coupon data model and validation (`src/database.py`) -/

/-- A document of the `coupon_codes` collection.  Fields read through
`coupon.get(...)` with a default are optional; integer-valued lists are
typed as integer lists (the source's defensive `int(x)` conversion over
them is then the identity). -/
structure Coupon where
  code : String
  title : Option String
  description : Option String
  discount_type : Option String
  discount_value : ℚ
  min_order_subtotal : ℚ
  audience : Option String
  eligible_customer_ids : List Int
  max_uses_total : Int
  uses_total : Int
  customer_ids_who_used : List Int
  starts_at : Option Int
  ends_at : Option Int
deriving Repr, DecidableEq

/-- `coupon_codes.find_one({"code": code})`: first match by code. -/
def findCoupon : List Coupon → String → Option Coupon
  | [], _ => none
  | c :: cs, code => if c.code = code then some c else findCoupon cs code

/-- The nested `coupon` summary dict of a successful validation. -/
structure CouponSummary where
  code : String
  title : String
  description : String
  discount_type : String
  discount_value : ℚ
  min_order_subtotal : ℚ
  audience : String
deriving Repr, DecidableEq

/-- The dict returned by `validate_coupon_for_subtotal`: failure results
carry only `ok`/`message`. -/
structure ValidateResult where
  ok : Bool
  message : String
  discount_amount : Option ℚ
  coupon : Option CouponSummary
deriving Repr, DecidableEq

/-- `validate_coupon_for_subtotal(code, customer_id, subtotal)` from
`src/database.py`, with the collection and the clock passed explicitly. -/
def validate_coupon_for_subtotal (coupon_codes : List Coupon) (now : Int)
    (code : String) (customer_id : Int) (subtotal : ℚ) : ValidateResult :=
  let ncode := pyUpper (pyStrip code)
  let subtotal := max 0 subtotal
  if ncode = "" then ⟨false, "Please enter a coupon code.", none, none⟩
  else
    match findCoupon coupon_codes ncode with
    | none => ⟨false, "Invalid coupon code.", none, none⟩
    | some coupon =>
      if (match coupon.starts_at with | some t => decide (now < t) | none => false) then
        ⟨false, "This coupon is not active yet.", none, none⟩
      else if (match coupon.ends_at with | some t => decide (t < now) | none => false) then
        ⟨false, "This coupon has expired.", none, none⟩
      else
        let min_subtotal := coupon.min_order_subtotal
        if subtotal < min_subtotal then
          ⟨false, "Minimum order subtotal is $" ++ fmtMoney2 min_subtotal ++ " for this coupon.",
            none, none⟩
        else
          let audience := pyLower (pyStrip (pyOptStrOr coupon.audience "all"))
          if audience = "customers" ∧ customer_id ∉ coupon.eligible_customer_ids then
            ⟨false, "This coupon is not available for your account.", none, none⟩
          else if coupon.max_uses_total > 0 ∧ coupon.uses_total ≥ coupon.max_uses_total then
            ⟨false, "This coupon has reached its maximum number of uses.", none, none⟩
          else if customer_id ∈ coupon.customer_ids_who_used then
            ⟨false, "You have already used this coupon.", none, none⟩
          else
            let discount_type := pyLower (pyStrip (pyOptStrOr coupon.discount_type ""))
            let discount_value := coupon.discount_value
            if ¬(discount_type = "amount" ∨ discount_type = "percent") ∨ discount_value ≤ 0 then
              ⟨false, "This coupon is configured incorrectly. Please contact support.", none, none⟩
            else
              let discount_amount :=
                if discount_type = "amount" then discount_value
                else subtotal * (discount_value / 100)
              let discount_amount :=
                if discount_amount > subtotal then subtotal else discount_amount
              ⟨true, "Coupon applied: " ++ ncode,
                some (round2 discount_amount),
                some { code := coupon.code
                       title := coupon.title.getD ""
                       description := coupon.description.getD ""
                       discount_type := discount_type
                       discount_value := discount_value
                       min_order_subtotal := min_subtotal
                       audience := coupon.audience.getD "all" }⟩

/-- The validation sequence as the spec states it (§4.1, steps 1–10, in
the spec's order, short-circuiting on first failure; step 9's clamp
written as the spec's "clamp to subtotal", i.e. a minimum).  Failure
message texts are taken from the implementation, which the spec
paraphrases.  Declared for comparison with the source embedding above. -/
def validate_coupon_spec (coupon_codes : List Coupon) (now : Int)
    (code : String) (customer_id : Int) (subtotal : ℚ) : ValidateResult :=
  let ncode := pyUpper (pyStrip code)
  if ncode = "" then ⟨false, "Please enter a coupon code.", none, none⟩
  else
    match findCoupon coupon_codes ncode with
    | none => ⟨false, "Invalid coupon code.", none, none⟩
    | some coupon =>
      if (match coupon.starts_at with | some t => decide (now < t) | none => false) then
        ⟨false, "This coupon is not active yet.", none, none⟩
      else if (match coupon.ends_at with | some t => decide (t < now) | none => false) then
        ⟨false, "This coupon has expired.", none, none⟩
      else if subtotal < coupon.min_order_subtotal then
        ⟨false, "Minimum order subtotal is $" ++ fmtMoney2 coupon.min_order_subtotal ++
          " for this coupon.", none, none⟩
      else if pyLower (pyStrip (pyOptStrOr coupon.audience "all")) = "customers" ∧
              customer_id ∉ coupon.eligible_customer_ids then
        ⟨false, "This coupon is not available for your account.", none, none⟩
      else if coupon.max_uses_total > 0 ∧ coupon.uses_total ≥ coupon.max_uses_total then
        ⟨false, "This coupon has reached its maximum number of uses.", none, none⟩
      else if customer_id ∈ coupon.customer_ids_who_used then
        ⟨false, "You have already used this coupon.", none, none⟩
      else
        let discount_type := pyLower (pyStrip (pyOptStrOr coupon.discount_type ""))
        if ¬(discount_type = "amount" ∨ discount_type = "percent") ∨
            coupon.discount_value ≤ 0 then
          ⟨false, "This coupon is configured incorrectly. Please contact support.", none, none⟩
        else
          let raw :=
            if discount_type = "amount" then coupon.discount_value
            else subtotal * (coupon.discount_value / 100)
          ⟨true, "Coupon applied: " ++ ncode,
            some (round2 (min raw subtotal)),
            some { code := coupon.code
                   title := coupon.title.getD ""
                   description := coupon.description.getD ""
                   discount_type := discount_type
                   discount_value := coupon.discount_value
                   min_order_subtotal := coupon.min_order_subtotal
                   audience := coupon.audience.getD "all" }⟩

/-! ## Orders, drafts, transactions: data model (`src/database.py`) -/

/-- An order document as written by `create_order_from_draft`. -/
structure Order where
  order_id : Int
  customer_id : Int
  order_status : String
  items : List (Int × Int)
  subtotal : ℚ
  discount_amount : ℚ
  discounted_subtotal : ℚ
  tax : ℚ
  shipping_fee : ℚ
  total : ℚ
  coupon_code : Option String
  payment_method : String
  payment_transaction_id : Option String
  notes : Option String
  shipping_address : String
  ordered_at : Option Int
  confirmed_at : Option Int
  packed_at : Option Int
  out_for_delivery_at : Option Int
  delivered_at : Option Int
  canceled_at : Option Int
deriving Repr, DecidableEq

/-- A document of `transaction_logs` as written by
`create_transaction_log`. -/
structure TransactionLog where
  transaction_id : String
  order_id : Int
  customer_id : Int
  payment_method : String
  status : String
  amount : ℚ
  provider : Option String
  provider_payment_intent_id : Option String
  created_at : Int
deriving Repr, DecidableEq

/-- A checkout draft (the `draft` dict stored in `checkout_drafts`),
after the shipping step may have added `shipping_address`/`notes`. -/
structure Draft where
  items : List (Int × Int)
  subtotal : ℚ
  discount_amount : ℚ
  discounted_subtotal : ℚ
  tax : ℚ
  shipping_fee : ℚ
  total : ℚ
  coupon_code : Option String
  shipping_address : Option String
  notes : Option String
deriving Repr, DecidableEq

/-- The persistent store: one list per MongoDB collection, the sequence
counters, a supply for fresh transaction ids (modelling `uuid.uuid4()`),
and a fault flag modelling the transaction-log store raising an
exception when updated (the COD-delivery side effect wraps that update
in `try/except`). -/
structure DB where
  orders : List Order
  transaction_logs : List TransactionLog
  checkout_drafts : List (Int × Draft)
  coupon_codes : List Coupon
  carts : List (Int × List (Int × Int))
  counters : List (String × Int)
  tx_counter : Nat
  tx_fault : Bool
deriving Repr, DecidableEq

/-- `orders.find_one({"order_id": oid})`: first match. -/
def findOrder : List Order → Int → Option Order
  | [], _ => none
  | o :: os, oid => if o.order_id = oid then some o else findOrder os oid

/-- `orders.update_one({"order_id": oid}, {"$set": ...})`: replace the
first match with the updated document. -/
def replaceOrderFirst : List Order → Int → Order → List Order
  | [], _, _ => []
  | o :: os, oid, o' => if o.order_id = oid then o' :: os else o :: replaceOrderFirst os oid o'

/-- Set `payment_transaction_id` on the first order matching `oid`
(`attach_transaction_to_order`'s `$set`). -/
def attachTxToFirst : List Order → Int → String → List Order
  | [], _, _ => []
  | o :: os, oid, tid =>
    if o.order_id = oid then { o with payment_transaction_id := some tid } :: os
    else o :: attachTxToFirst os oid tid

/-- `transaction_logs.update_one({"transaction_id": tid}, {"$set":
{"status": s}})`: update the first match, returning whether a document
was modified (`modified_count > 0`, which is 0 when the status already
equals the new value). -/
def setTxStatusFirst : List TransactionLog → String → String → Bool × List TransactionLog
  | [], _, _ => (false, [])
  | t :: ts, tid, s =>
    if t.transaction_id = tid then (decide (t.status ≠ s), { t with status := s } :: ts)
    else
      let r := setTxStatusFirst ts tid s
      (r.1, t :: r.2)

/-- `transaction_logs.find_one({"transaction_id": tid})`: first match by
transaction id (used in theorem statements about the linked
transaction). -/
def findTx : List TransactionLog → String → Option TransactionLog
  | [], _ => none
  | t :: ts, tid => if t.transaction_id = tid then some t else findTx ts tid

/-- First transaction log matching the `(provider="stripe",
provider_payment_intent_id)` dedup key. -/
def findStripeTx : List TransactionLog → String → Option TransactionLog
  | [], _ => none
  | t :: ts, piv =>
    if t.provider = some "stripe" ∧ t.provider_payment_intent_id = some piv then some t
    else findStripeTx ts piv

/-- Number of transaction logs matching the dedup key. -/
def countStripeTx : List TransactionLog → String → Nat
  | [], _ => 0
  | t :: ts, piv =>
    (if t.provider = some "stripe" ∧ t.provider_payment_intent_id = some piv then 1 else 0) +
      countStripeTx ts piv

/-- `checkout_drafts.find_one({"customer_id": cid})`. -/
def lookupDraft : List (Int × Draft) → Int → Option Draft
  | [], _ => none
  | (k, d) :: rest, cid => if k = cid then some d else lookupDraft rest cid

/-- `checkout_drafts.delete_one({"customer_id": cid})`: delete the first
match. -/
def draftDeleteFirst : List (Int × Draft) → Int → List (Int × Draft)
  | [], _ => []
  | (k, d) :: rest, cid => if k = cid then rest else (k, d) :: draftDeleteFirst rest cid

/-- `carts.update_one(..., upsert=True)` setting `items`: replace the
first entry for the customer or insert one. -/
def cartSet : List (Int × List (Int × Int)) → Int → List (Int × Int) →
    List (Int × List (Int × Int))
  | [], cid, items => [(cid, items)]
  | (k, v) :: rest, cid, items =>
    if k = cid then (cid, items) :: rest else (k, v) :: cartSet rest cid items

/-- Counter lookup (the `seq` field of the named counter document, 0 when
the document does not exist yet). -/
def ctrGet : List (String × Int) → String → Int
  | [], _ => 0
  | (k, v) :: rest, n => if k = n then v else ctrGet rest n

/-- Counter upsert. -/
def ctrSet : List (String × Int) → String → Int → List (String × Int)
  | [], n, v => [(n, v)]
  | (k, w) :: rest, n, v => if k = n then (n, v) :: rest else (k, w) :: ctrSet rest n v

/-! ## Orders, drafts, transactions: operations (`src/database.py`) -/

/-- `next_sequence(name)`: `counters.find_one_and_update` with `$inc: 1`,
`upsert=True`, `return_document=True` — an atomic increment-then-read,
returning the incremented value. -/
def next_sequence (db : DB) (name : String) : Int × DB :=
  let seq := ctrGet db.counters name + 1
  (seq, { db with counters := ctrSet db.counters name seq })

/-- `create_order_from_draft(customer_id, draft, payment_method,
shipping_address, notes)` from `src/database.py`. -/
def create_order_from_draft (db : DB) (customer_id : Int) (draft : Draft)
    (payment_method : String) (shipping_address : String) (notes : Option String)
    (now : Int) : Int × DB :=
  let r := next_sequence db "order_id"
  let order_id := r.1
  let doc : Order :=
    { order_id := order_id
      customer_id := customer_id
      order_status := "pending"
      items := draft.items
      subtotal := draft.subtotal
      discount_amount := draft.discount_amount
      discounted_subtotal := draft.discounted_subtotal
      tax := draft.tax
      shipping_fee := draft.shipping_fee
      total := draft.total
      coupon_code := draft.coupon_code
      payment_method := payment_method
      payment_transaction_id := none
      notes := notes
      shipping_address := shipping_address
      ordered_at := some now
      confirmed_at := none
      packed_at := none
      out_for_delivery_at := none
      delivered_at := none
      canceled_at := none }
  (order_id, { r.2 with orders := r.2.orders ++ [doc] })

/-- `attach_transaction_to_order(order_id, transaction_id)`. -/
def attach_transaction_to_order (db : DB) (order_id : Int) (transaction_id : String) : DB :=
  { db with orders := attachTxToFirst db.orders order_id transaction_id }

/-- `create_transaction_log(...)` from `src/database.py`; the fresh
`uuid.uuid4()` token is modelled by a counter-derived unique string. -/
def create_transaction_log (db : DB) (order_id : Int) (customer_id : Int)
    (payment_method : String) (amount : ℚ) (status : String)
    (provider : Option String) (provider_payment_intent_id : Option String)
    (now : Int) : String × DB :=
  let tx_id := "tx-" ++ toString db.tx_counter
  (tx_id,
    { db with
        transaction_logs := db.transaction_logs ++
          [{ transaction_id := tx_id
             order_id := order_id
             customer_id := customer_id
             payment_method := payment_method
             status := status
             amount := amount
             provider := provider
             provider_payment_intent_id := provider_payment_intent_id
             created_at := now }]
        tx_counter := db.tx_counter + 1 })

/-- `empty_cart(customer_id)` (`src/database.py`): upsert the cart with
empty items. -/
def empty_cart (db : DB) (customer_id : Int) : DB :=
  { db with carts := cartSet db.carts customer_id [] }

/-- `delete_checkout_draft(customer_id)`. -/
def delete_checkout_draft (db : DB) (customer_id : Int) : DB :=
  { db with checkout_drafts := draftDeleteFirst db.checkout_drafts customer_id }

/-! ## Order status state machine (`src/database.py`) -/

/-- `OPEN_STATUSES` (`src/database.py`). -/
def OPEN_STATUSES : List String := ["pending", "confirmed", "packed", "out_for_delivery"]

/-- `CLOSED_STATUSES` (`src/database.py`). -/
def CLOSED_STATUSES : List String := ["delivered", "canceled"]

/-- `ALLOWED_TRANSITIONS` (`src/database.py`).  The dict's explicit empty
entries for `delivered`/`canceled` and the `.get(current, set())` default
both yield the empty set, collapsed here into the final else. -/
def ALLOWED_TRANSITIONS (s : String) : List String :=
  if s = "pending" then ["confirmed", "canceled"]
  else if s = "confirmed" then ["packed"]
  else if s = "packed" then ["out_for_delivery"]
  else if s = "out_for_delivery" then ["delivered"]
  else []

/-- `can_transition_order_status(current_status, new_status)`. -/
def can_transition_order_status (current_status new_status : String) : Bool :=
  decide (pyStrip new_status ∈ ALLOWED_TRANSITIONS (pyStrip current_status))

/-- `update_transaction_status_by_transaction_id(transaction_id,
new_status)`. -/
def update_transaction_status_by_transaction_id (db : DB) (transaction_id : String)
    (new_status : String) : Bool × DB :=
  let tid := pyStrip transaction_id
  if tid = "" then (false, db)
  else
    let r := setTxStatusFirst db.transaction_logs tid new_status
    (r.1, { db with transaction_logs := r.2 })

/-- The dict returned by `update_order_status_with_message`. -/
structure TransitionResult where
  ok : Bool
  detail : Option String
  order : Option Order
deriving Repr, DecidableEq

/-- Set the single timestamp field associated with the new status
(`STATUS_TS_FIELD`; no field is associated with `pending`). -/
def setStatusTimestamp (o : Order) (ns : String) (now : Int) : Order :=
  if ns = "confirmed" then { o with confirmed_at := some now }
  else if ns = "packed" then { o with packed_at := some now }
  else if ns = "out_for_delivery" then { o with out_for_delivery_at := some now }
  else if ns = "delivered" then { o with delivered_at := some now }
  else if ns = "canceled" then { o with canceled_at := some now }
  else o

/-- The notes value written by the admin-message append (audit trail)
of `update_order_status_with_message`. -/
def appendAdminNotes (existingNotes : Option String) (ns : String) (msg : String)
    (now : Int) : String :=
  let block := pyStrip ("[ADMIN " ++ pyUpper ns ++ " @ " ++ fmtStamp now ++ "]\n" ++ msg)
  let prev_notes := existingNotes.getD ""
  if pyStrip prev_notes ≠ "" then pyRstrip prev_notes ++ "\n\n" ++ block else block

/-- Timestamp field of an order by status name (used in theorem
statements). -/
def tsOf (o : Order) (s : String) : Option Int :=
  if s = "confirmed" then o.confirmed_at
  else if s = "packed" then o.packed_at
  else if s = "out_for_delivery" then o.out_for_delivery_at
  else if s = "delivered" then o.delivered_at
  else if s = "canceled" then o.canceled_at
  else none

/-- The `$set` update of a successful transition: new `order_status`,
the one timestamp field associated with the (stripped) new status, and —
when the stripped admin message is non-empty — the appended notes. -/
def applyTransition (existing : Order) (ns admin_message : String) (now : Int) : Order :=
  let o1 := setStatusTimestamp { existing with order_status := ns } ns now
  let msg := pyStrip admin_message
  if msg ≠ "" then { o1 with notes := some (appendAdminNotes existing.notes ns msg now) }
  else o1

/-- The COD-delivery side effect of `update_order_status_with_message`,
wrapped in `try/except`: when the transaction store raises
(`db1.tx_fault`), the exception is swallowed and the store is left as it
was. -/
def codDeliveredSideEffect (db1 : DB) (existing : Order) (ns : String) : DB :=
  let tid := pyStrip (pyOptStrOr existing.payment_transaction_id "")
  if ns = "delivered" ∧ pyStrip existing.payment_method = "cod" ∧ tid ≠ "" then
    (if db1.tx_fault then db1
     else (update_transaction_status_by_transaction_id db1 tid "succeeded").2)
  else db1

/-- The store after a successful transition: the order replaced by its
updated document, then the COD-delivery side effect. -/
def updatedStore (db : DB) (order_id : Int) (existing : Order) (ns admin_message : String)
    (now : Int) : DB :=
  codDeliveredSideEffect
    { db with
        orders := replaceOrderFirst db.orders order_id
          (applyTransition existing ns admin_message now) }
    existing ns

/-- `update_order_status_with_message(order_id, new_status,
admin_message)` from `src/database.py` (the `int(order_id)` conversion is
the identity on the model's integer ids). -/
def update_order_status_with_message (db : DB) (order_id : Int) (new_status : String)
    (admin_message : String) (now : Int) : TransitionResult × DB :=
  let ns := pyStrip new_status
  if ¬(ns ∈ OPEN_STATUSES ∨ ns ∈ CLOSED_STATUSES) then
    ({ ok := false, detail := some "Invalid status.", order := none }, db)
  else
    match findOrder db.orders order_id with
    | none => ({ ok := false, detail := some "Order not found.", order := none }, db)
    | some existing =>
      let current_status := pyStrip (pyStrOr existing.order_status "pending")
      if ¬ can_transition_order_status current_status ns then
        ({ ok := false
           detail := some ("Invalid transition: " ++ current_status ++ " -> " ++ ns)
           order := none }, db)
      else
        let db2 := updatedStore db order_id existing ns admin_message now
        ({ ok := true, detail := none, order := findOrder db2.orders order_id }, db2)

/-! ## Coupon redemption (spec-modelled) -/

/-- Result dict of the coupon redemption operation. -/
structure MarkResult where
  ok : Bool
  message : String
deriving Repr, DecidableEq

/-- `coupon_codes` update: replace the first coupon matching the code. -/
def replaceCouponFirst : List Coupon → String → Coupon → List Coupon
  | [], _, _ => []
  | c :: cs, code, c' => if c.code = code then c' :: cs else c :: replaceCouponFirst cs code c'

/-- Modelled from the spec: `mark_coupon_used(code, customer_id)` is
called from `src/main.py` (COD checkout and the payment webhook) but its
definition is not under `src/`.  Per the spec (§4.1), the redeem
operation "atomically appends customer_id to customer_ids_who_used and
increments uses_total, and must itself re-check the one-time-use and
max-uses conditions"; message texts follow the validator's wording. -/
def mark_coupon_used (db : DB) (code : String) (customer_id : Int) : MarkResult × DB :=
  match findCoupon db.coupon_codes code with
  | none => ({ ok := false, message := "Invalid coupon code." }, db)
  | some c =>
    if customer_id ∈ c.customer_ids_who_used then
      ({ ok := false, message := "You have already used this coupon." }, db)
    else if c.max_uses_total > 0 ∧ c.uses_total ≥ c.max_uses_total then
      ({ ok := false, message := "This coupon has reached its maximum number of uses." }, db)
    else
      ({ ok := true, message := "Coupon redeemed." },
        { db with
            coupon_codes := replaceCouponFirst db.coupon_codes code
              { c with
                  customer_ids_who_used := c.customer_ids_who_used ++ [customer_id]
                  uses_total := c.uses_total + 1 } })

/-! ## Stripe webhook (`src/main.py`, `stripe_webhook`) -/

/-- The fields of a `checkout.session.completed` event that the handler
reads: `metadata.customer_id` (already coerced by `int(... or 0)`) and
`object.payment_intent`. -/
structure Event where
  event_type : String
  customer_id : Int
  payment_intent : Option String
deriving Repr, DecidableEq

/-- A `PlainTextResponse(body, status_code)`. -/
structure HttpResp where
  status : Nat
  body : String
deriving Repr, DecidableEq

/-- The `PlainTextResponse("ok", status_code=200)` acknowledgement. -/
def ok200 : HttpResp := { status := 200, body := "ok" }

/-- The coupon-marking step of the webhook: normalize the draft's
`coupon_code`; when non-empty, call `mark_coupon_used` and report its
outcome. -/
def coupon_step (db : DB) (draft : Draft) (customer_id : Int) : Bool × DB :=
  let cc := pyUpper (pyStrip (draft.coupon_code.getD ""))
  if cc = "" then (true, db)
  else
    let r := mark_coupon_used db cc customer_id
    (r.1.ok, r.2)

/-- The order/transaction materialization tail of the webhook's happy
path (`src/main.py` lines 2442–2462): create the order from the draft
with `payment_method="online"`, create a `succeeded` stripe transaction
log keyed by the payment intent, attach it, clear the cart and delete
the draft. -/
def materializeFromDraft (db : DB) (cid : Int) (draft : Draft) (piv : String)
    (now : Int) : DB :=
  let sa := draft.shipping_address.getD ""
  let cod := create_order_from_draft db cid draft "online" sa draft.notes now
  let ctl := create_transaction_log cod.2 cod.1 cid "online" draft.total "succeeded"
    (some "stripe") (some piv) now
  let db4 := attach_transaction_to_order ctl.2 cod.1 ctl.1
  let db5 := empty_cart db4 cid
  delete_checkout_draft db5 cid

/-- The body of `stripe_webhook` after signature verification
(`src/main.py` lines 2404–2464): handling of one event against the
store. -/
def handle_event (db : DB) (ev : Event) (now : Int) : DB × HttpResp :=
  if ev.event_type = "checkout.session.completed" then
    if ev.customer_id = 0 ∨ pyFalsyOptStr ev.payment_intent then (db, ok200)
    else
      let piv := ev.payment_intent.getD ""
      match findStripeTx db.transaction_logs piv with
      | some _ => (db, ok200)
      | none =>
        match lookupDraft db.checkout_drafts ev.customer_id with
        | none => (db, ok200)
        | some draft =>
          if pyFalsyOptStr draft.shipping_address then (db, ok200)
          else
            let step := coupon_step db draft ev.customer_id
            if step.1 = false then (step.2, ok200)
            else (materializeFromDraft step.2 ev.customer_id draft piv now, ok200)
  else (db, ok200)

/-- A `checkout.session.completed` event with the given metadata
customer and payment intent. -/
def completedEvent (cid : Int) (piv : String) : Event :=
  { event_type := "checkout.session.completed", customer_id := cid
    payment_intent := some piv }

/-- `stripe_webhook` (`src/main.py`): the whole body runs inside one
`try/except` returning `PlainTextResponse("webhook error", 500)` on any
exception.  `secret_configured` models `STRIPE_WEBHOOK_SECRET` being
set; `sig_valid` models `stripe.Webhook.construct_event` succeeding (it
raises on a bad signature); `internal_fault` models the storage layer
raising during event processing (before the first mutation), caught by
the same `except`. -/
def stripe_webhook (secret_configured sig_valid internal_fault : Bool) (db : DB)
    (ev : Event) (now : Int) : DB × HttpResp :=
  if ¬ secret_configured then (db, { status := 500, body := "Webhook secret not configured" })
  else if ¬ sig_valid then (db, { status := 500, body := "webhook error" })
  else if internal_fault then (db, { status := 500, body := "webhook error" })
  else handle_event db ev now

/-- Repeated delivery of the same event (provider retries). -/
def iterateHandle (ev : Event) (now : Int) : Nat → DB → DB
  | 0, st => st
  | n + 1, st => iterateHandle ev now n (handle_event st ev now).1

/-! ## Concrete fixtures used by witnesses and counterexamples -/

/-- An empty store. -/
def emptyDB : DB :=
  { orders := [], transaction_logs := [], checkout_drafts := [], coupon_codes := []
    carts := [], counters := [], tx_counter := 0, tx_fault := false }

/-- A baseline order used by fixtures. -/
def baseOrder : Order :=
  { order_id := 1, customer_id := 7, order_status := "pending", items := [(3, 2)]
    subtotal := 100, discount_amount := 0, discounted_subtotal := 100, tax := 6
    shipping_fee := 5, total := 111, coupon_code := none, payment_method := "cod"
    payment_transaction_id := none, notes := none, shipping_address := "addr"
    ordered_at := some 0, confirmed_at := none, packed_at := none
    out_for_delivery_at := none, delivered_at := none, canceled_at := none }

/-- A baseline coupon: no audience restriction, no usage cap. -/
def baseCoupon : Coupon :=
  { code := "SAVE10", title := some "Save", description := none
    discount_type := some "amount", discount_value := 10, min_order_subtotal := 0
    audience := none, eligible_customer_ids := [], max_uses_total := 0, uses_total := 0
    customer_ids_who_used := [], starts_at := none, ends_at := none }

/-- A baseline draft carrying a shipping address and no coupon. -/
def baseDraft : Draft :=
  { items := [(3, 2)], subtotal := 100, discount_amount := 0, discounted_subtotal := 100
    tax := 6, shipping_fee := 5, total := 111, coupon_code := none
    shipping_address := some "addr", notes := some "ring twice" }

/-- Fixture for C1's witness: one pending order. -/
def dbC1 : DB := { emptyDB with orders := [baseOrder] }

/-- Fixture for C3's witness: a draft for customer 7, no transaction
logs. -/
def dbC3 : DB := { emptyDB with checkout_drafts := [(7, baseDraft)] }

/-- Fixture for C4's witness: one fresh coupon. -/
def dbC4 : DB := { emptyDB with coupon_codes := [baseCoupon] }

/-- Fixture for C5: customer 7 already used the draft's coupon, so the
webhook's coupon mark fails. -/
def dbC5 : DB :=
  { emptyDB with
      coupon_codes := [{ baseCoupon with customer_ids_who_used := [7], uses_total := 1 }]
      checkout_drafts := [(7, { baseDraft with coupon_code := some "SAVE10" })] }

/-- The completed-checkout event used by C5/C6. -/
def evC5 : Event :=
  { event_type := "checkout.session.completed", customer_id := 7
    payment_intent := some "pi_1" }

/-- Fixture for C9's witness: a COD order out for delivery linked to a
pending transaction. -/
def orderC9 : Order :=
  { baseOrder with
      order_status := "out_for_delivery",
      payment_transaction_id := some "t-1" }

/-- The pending COD transaction linked to `orderC9`. -/
def txC9 : TransactionLog :=
  { transaction_id := "t-1", order_id := 1, customer_id := 7, payment_method := "cod"
    status := "pending", amount := 111, provider := none
    provider_payment_intent_id := none, created_at := 0 }

/-- Fixture store for C9's witness. -/
def dbC9 : DB := { emptyDB with orders := [orderC9], transaction_logs := [txC9] }

/-- Fixture for C10: a packed order whose notes end in a trailing
space. -/
def orderC10 : Order :=
  { baseOrder with
      order_status := "packed", notes := some "hello ",
      confirmed_at := some 1, packed_at := some 2 }

/-- Fixture store for C10. -/
def dbC10 : DB := { emptyDB with orders := [orderC10] }

/-! ## Theorems -/

/-- A prefix of a left-stripped list is itself left-stripped. -/
theorem dropWhile_eq_self_of_prefix (w t m : List Char)
    (hm : List.dropWhile isSpaceChar m = m) (hwt : w ++ t = m) :
    List.dropWhile isSpaceChar w = w := by
  cases w with
  | nil => rfl
  | cons a w' =>
    have hm' : List.dropWhile isSpaceChar ((a :: w') ++ t) = (a :: w') ++ t := by
      rw [hwt]; exact hm
    rw [List.cons_append, List.dropWhile_cons] at hm'
    cases ha : isSpaceChar a with
    | false =>
      rw [List.dropWhile_cons, ha, if_neg Bool.false_ne_true]
    | true =>
      rw [ha, if_pos rfl] at hm'
      exfalso
      have h1 : (List.dropWhile isSpaceChar (w' ++ t)).length ≤ (w' ++ t).length :=
        (List.dropWhile_suffix isSpaceChar).length_le
      rw [hm', List.length_cons] at h1
      omega

/-- Stripping leading then trailing whitespace is idempotent (list
level). -/
theorem stripChars_idem (l : List Char) :
    List.rdropWhile isSpaceChar
      ((List.rdropWhile isSpaceChar (l.dropWhile isSpaceChar)).dropWhile isSpaceChar) =
    List.rdropWhile isSpaceChar (l.dropWhile isSpaceChar) := by
  obtain ⟨t, ht⟩ := List.rdropWhile_prefix isSpaceChar (l.dropWhile isSpaceChar)
  have hw := dropWhile_eq_self_of_prefix _ t _ (List.dropWhile_idempotent _ _) ht
  rw [hw, List.rdropWhile_idempotent]

/-- Python `.strip()` is idempotent. -/
theorem pyStrip_idem (s : String) : pyStrip (pyStrip s) = pyStrip s := by
  show (⟨List.rdropWhile isSpaceChar
      ((List.rdropWhile isSpaceChar (s.data.dropWhile isSpaceChar)).dropWhile
        isSpaceChar)⟩ : String) =
    ⟨List.rdropWhile isSpaceChar (s.data.dropWhile isSpaceChar)⟩
  exact congrArg String.mk (stripChars_idem s.data)

/-- The "clamp to subtotal" conditional is a minimum. -/
theorem clamp_eq_min (a s : ℚ) : (if a > s then s else a) = min a s := by
  rcases le_or_lt a s with h1 | h1
  · rw [if_neg (not_lt.mpr h1), min_eq_left h1]
  · rw [if_pos h1, min_eq_right h1.le]

/-- C7.  `validate_coupon_for_subtotal` performs no mutation (it is a
pure function of the coupon collection, the clock and its arguments) and
agrees, check for check and in the same order, with the spec's
validation sequence `validate_coupon_spec`, including the success
formula (amount / percent, clamped to the subtotal, rounded to two
decimals). -/
theorem claim_C7_validate_coupon_matches_spec (coupon_codes : List Coupon) (now : Int)
    (code : String) (customer_id : Int) (subtotal : ℚ) (h : 0 ≤ subtotal) :
    validate_coupon_for_subtotal coupon_codes now code customer_id subtotal =
      validate_coupon_spec coupon_codes now code customer_id subtotal := by
  unfold validate_coupon_for_subtotal validate_coupon_spec
  rw [max_eq_right h]
  simp only [clamp_eq_min]

/-- Witness for C7 at a concrete coupon store and subtotal. -/
theorem claim_C7_witness :
    (0 : ℚ) ≤ 100 ∧
    validate_coupon_for_subtotal [baseCoupon] 5 " save10 " 7 100 =
      validate_coupon_spec [baseCoupon] 5 " save10 " 7 100 :=
  ⟨by norm_num,
    claim_C7_validate_coupon_matches_spec [baseCoupon] 5 " save10 " 7 100 (by norm_num)⟩

/-- Every target in the transition table is one of the five non-pending
statuses. -/
theorem mem_allowed_targets {cs ns : String} (h : ns ∈ ALLOWED_TRANSITIONS cs) :
    ns = "confirmed" ∨ ns = "canceled" ∨ ns = "packed" ∨ ns = "out_for_delivery" ∨
      ns = "delivered" := by
  unfold ALLOWED_TRANSITIONS at h
  split_ifs at h <;> simp_all <;> tauto

/-- Every target in the transition table is a recognized status. -/
theorem mem_allowed_valid {cs ns : String} (h : ns ∈ ALLOWED_TRANSITIONS cs) :
    ns ∈ OPEN_STATUSES ∨ ns ∈ CLOSED_STATUSES := by
  rcases mem_allowed_targets h with h | h | h | h | h <;> subst h <;>
    simp [OPEN_STATUSES, CLOSED_STATUSES]

/-- `can_transition_order_status` on already-stripped arguments decides
membership in the transition table. -/
theorem can_transition_strip_iff (a b : String) :
    can_transition_order_status (pyStrip a) (pyStrip b) = true ↔
      pyStrip b ∈ ALLOWED_TRANSITIONS (pyStrip a) := by
  unfold can_transition_order_status
  rw [pyStrip_idem, pyStrip_idem]
  exact decide_eq_true_iff

/-- Branch characterization: unrecognized target status. -/
theorem update_invalid_status (db : DB) (oid : Int) (ns msg : String) (now : Int)
    (h : ¬(pyStrip ns ∈ OPEN_STATUSES ∨ pyStrip ns ∈ CLOSED_STATUSES)) :
    update_order_status_with_message db oid ns msg now =
      ({ ok := false, detail := some "Invalid status.", order := none }, db) := by
  unfold update_order_status_with_message
  rw [if_pos h]

/-- Branch characterization: order not found. -/
theorem update_not_found (db : DB) (oid : Int) (ns msg : String) (now : Int)
    (hv : pyStrip ns ∈ OPEN_STATUSES ∨ pyStrip ns ∈ CLOSED_STATUSES)
    (h : findOrder db.orders oid = none) :
    update_order_status_with_message db oid ns msg now =
      ({ ok := false, detail := some "Order not found.", order := none }, db) := by
  unfold update_order_status_with_message
  rw [if_neg (not_not_intro hv), h]

/-- Branch characterization: the pair is not in the transition table. -/
theorem update_bad_transition (db : DB) (oid : Int) (o : Order) (ns msg : String) (now : Int)
    (hv : pyStrip ns ∈ OPEN_STATUSES ∨ pyStrip ns ∈ CLOSED_STATUSES)
    (hfind : findOrder db.orders oid = some o)
    (hc : can_transition_order_status (pyStrip (pyStrOr o.order_status "pending"))
      (pyStrip ns) = false) :
    update_order_status_with_message db oid ns msg now =
      ({ ok := false,
         detail := some ("Invalid transition: " ++ pyStrip (pyStrOr o.order_status "pending") ++
           " -> " ++ pyStrip ns),
         order := none }, db) := by
  unfold update_order_status_with_message
  rw [if_neg (not_not_intro hv), hfind]
  simp only [hc, Bool.false_eq_true, not_false_eq_true, if_pos]

/-- Branch characterization: legal transition. -/
theorem update_success (db : DB) (oid : Int) (o : Order) (ns msg : String) (now : Int)
    (hv : pyStrip ns ∈ OPEN_STATUSES ∨ pyStrip ns ∈ CLOSED_STATUSES)
    (hfind : findOrder db.orders oid = some o)
    (hc : can_transition_order_status (pyStrip (pyStrOr o.order_status "pending"))
      (pyStrip ns) = true) :
    update_order_status_with_message db oid ns msg now =
      ({ ok := true, detail := none,
         order := findOrder (updatedStore db oid o (pyStrip ns) msg now).orders oid },
       updatedStore db oid o (pyStrip ns) msg now) := by
  unfold update_order_status_with_message
  rw [if_neg (not_not_intro hv), hfind]
  simp only [hc, not_true_eq_false, if_neg, ite_false]

/-- C1.  For a stored order, `update_order_status_with_message` succeeds
exactly when `(current_status, new_status)` is in `ALLOWED_TRANSITIONS`;
any other recognized target is rejected with the detail
`"Invalid transition: X -> Y"` and the store is left unchanged; and when
the current status is terminal (`delivered`/`canceled`) every call
fails, leaving the store (hence the order) unchanged. -/
theorem claim_C1_transition_legality (db : DB) (oid : Int) (o : Order) (ns msg : String)
    (now : Int) (hfind : findOrder db.orders oid = some o) :
    (((update_order_status_with_message db oid ns msg now).1.ok = true) ↔
      pyStrip ns ∈ ALLOWED_TRANSITIONS (pyStrip (pyStrOr o.order_status "pending"))) ∧
    ((pyStrip ns ∈ OPEN_STATUSES ∨ pyStrip ns ∈ CLOSED_STATUSES) →
      pyStrip ns ∉ ALLOWED_TRANSITIONS (pyStrip (pyStrOr o.order_status "pending")) →
      (update_order_status_with_message db oid ns msg now).1 =
        { ok := false,
          detail := some ("Invalid transition: " ++ pyStrip (pyStrOr o.order_status "pending") ++
            " -> " ++ pyStrip ns),
          order := none } ∧
      (update_order_status_with_message db oid ns msg now).2 = db) ∧
    ((pyStrip (pyStrOr o.order_status "pending") = "delivered" ∨
      pyStrip (pyStrOr o.order_status "pending") = "canceled") →
      (update_order_status_with_message db oid ns msg now).1.ok = false ∧
      (update_order_status_with_message db oid ns msg now).2 = db) := by
  have hterm : (pyStrip (pyStrOr o.order_status "pending") = "delivered" ∨
      pyStrip (pyStrOr o.order_status "pending") = "canceled") →
      pyStrip ns ∉ ALLOWED_TRANSITIONS (pyStrip (pyStrOr o.order_status "pending")) := by
    intro ht hmem
    rcases ht with ht | ht <;> rw [ht] at hmem <;>
      simp [ALLOWED_TRANSITIONS] at hmem
  by_cases hv : pyStrip ns ∈ OPEN_STATUSES ∨ pyStrip ns ∈ CLOSED_STATUSES
  · cases hc : can_transition_order_status (pyStrip (pyStrOr o.order_status "pending"))
        (pyStrip ns) with
    | false =>
      have hmem : pyStrip ns ∉ ALLOWED_TRANSITIONS (pyStrip (pyStrOr o.order_status "pending")) := by
        intro hmem
        rw [(can_transition_strip_iff _ _).mpr hmem] at hc
        exact Bool.true_eq_false.mp hc
      rw [update_bad_transition db oid o ns msg now hv hfind hc]
      exact ⟨⟨fun hok => by simp at hok, fun hm => absurd hm hmem⟩,
        fun _ _ => ⟨rfl, rfl⟩, fun _ => ⟨rfl, rfl⟩⟩
    | true =>
      have hmem := (can_transition_strip_iff (pyStrOr o.order_status "pending") ns).mp hc
      rw [update_success db oid o ns msg now hv hfind hc]
      exact ⟨⟨fun _ => hmem, fun _ => rfl⟩, fun _ hn => absurd hmem hn,
        fun ht => absurd hmem (hterm ht)⟩
  · rw [update_invalid_status db oid ns msg now hv]
    exact ⟨⟨fun hok => by simp at hok, fun hmem => absurd (mem_allowed_valid hmem) hv⟩,
      fun hv' _ => absurd hv' hv, fun _ => ⟨rfl, rfl⟩⟩

/-- Witness for C1: the pending fixture order, target `confirmed`. -/
theorem claim_C1_witness :
    findOrder dbC1.orders 1 = some baseOrder ∧
    (((update_order_status_with_message dbC1 1 "confirmed" "" 5).1.ok = true) ↔
      pyStrip "confirmed" ∈
        ALLOWED_TRANSITIONS (pyStrip (pyStrOr baseOrder.order_status "pending"))) :=
  ⟨rfl, (claim_C1_transition_legality dbC1 1 baseOrder "confirmed" "" 5 rfl).1⟩

/-- Reading the counter just set returns the set value. -/
theorem ctrGet_ctrSet (l : List (String × Int)) (n : String) (v : Int) :
    ctrGet (ctrSet l n v) n = v := by
  induction l with
  | nil => simp [ctrSet, ctrGet]
  | cons kv rest ih =>
    obtain ⟨k, w⟩ := kv
    by_cases h : k = n
    · simp [ctrSet, ctrGet, h]
    · simp [ctrSet, ctrGet, h, ih]

/-- C8.  `create_order_from_draft` allocates ids by an atomic
increment-and-read: the next call on the resulting store receives a
strictly larger (hence distinct) id; and the persisted order starts
`pending` with `ordered_at = now`, every other lifecycle timestamp and
the transaction link null, and the six pricing fields copied verbatim
from the draft. -/
theorem claim_C8_order_materializer (db : DB) (cid cid' : Int) (draft draft' : Draft)
    (pm pm' sa sa' : String) (notes notes' : Option String) (now now' : Int) :
    (create_order_from_draft db cid draft pm sa notes now).1 <
      (create_order_from_draft (create_order_from_draft db cid draft pm sa notes now).2
        cid' draft' pm' sa' notes' now').1 ∧
    ∃ o : Order,
      (create_order_from_draft db cid draft pm sa notes now).2.orders = db.orders ++ [o] ∧
      o.order_id = (create_order_from_draft db cid draft pm sa notes now).1 ∧
      o.order_status = "pending" ∧ o.ordered_at = some now ∧
      o.confirmed_at = none ∧ o.packed_at = none ∧ o.out_for_delivery_at = none ∧
      o.delivered_at = none ∧ o.canceled_at = none ∧
      o.payment_transaction_id = none ∧
      o.subtotal = draft.subtotal ∧ o.discount_amount = draft.discount_amount ∧
      o.discounted_subtotal = draft.discounted_subtotal ∧ o.tax = draft.tax ∧
      o.shipping_fee = draft.shipping_fee ∧ o.total = draft.total := by
  constructor
  · show ctrGet db.counters "order_id" + 1 <
      ctrGet (ctrSet db.counters "order_id" (ctrGet db.counters "order_id" + 1))
        "order_id" + 1
    rw [ctrGet_ctrSet]
    omega
  · exact ⟨_, rfl, rfl, rfl, rfl, rfl, rfl, rfl, rfl, rfl, rfl, rfl, rfl, rfl, rfl, rfl,
      rfl⟩

/-- A coupon found by code carries that code. -/
theorem findCoupon_code {cs : List Coupon} {code : String} {c : Coupon}
    (h : findCoupon cs code = some c) : c.code = code := by
  induction cs with
  | nil => simp [findCoupon] at h
  | cons x rest ih =>
    by_cases hx : x.code = code
    · rw [findCoupon, if_pos hx] at h
      cases h
      exact hx
    · rw [findCoupon, if_neg hx] at h
      exact ih h

/-- Replacing the (found) coupon makes the replacement the lookup
result, provided the replacement keeps the code. -/
theorem findCoupon_replace {cs : List Coupon} {code : String} {c c' : Coupon}
    (hc : c'.code = code) (h : findCoupon cs code = some c) :
    findCoupon (replaceCouponFirst cs code c') code = some c' := by
  induction cs with
  | nil => simp [findCoupon] at h
  | cons x rest ih =>
    by_cases hx : x.code = code
    · rw [replaceCouponFirst, if_pos hx, findCoupon, if_pos hc]
    · rw [replaceCouponFirst, if_neg hx, findCoupon, if_neg hx]
      rw [findCoupon, if_neg hx] at h
      exact ih h

/-- `mark_coupon_used` touches only the coupon collection. -/
theorem mark_coupon_used_frame (db : DB) (code : String) (cid : Int) :
    (mark_coupon_used db code cid).2.orders = db.orders ∧
    (mark_coupon_used db code cid).2.transaction_logs = db.transaction_logs ∧
    (mark_coupon_used db code cid).2.checkout_drafts = db.checkout_drafts ∧
    (mark_coupon_used db code cid).2.carts = db.carts ∧
    (mark_coupon_used db code cid).2.counters = db.counters ∧
    (mark_coupon_used db code cid).2.tx_counter = db.tx_counter ∧
    (mark_coupon_used db code cid).2.tx_fault = db.tx_fault := by
  unfold mark_coupon_used
  split
  · exact ⟨rfl, rfl, rfl, rfl, rfl, rfl, rfl⟩
  · split_ifs <;> exact ⟨rfl, rfl, rfl, rfl, rfl, rfl, rfl⟩

/-- C4.  (Spec-modelled `mark_coupon_used`.)  Redeeming re-checks the
conditions at write time: a customer already in
`customer_ids_who_used` gets an "already used" failure with the store
unchanged; a successful redemption appends the customer and increments
`uses_total`; and for a coupon with no usage cap, two redeem attempts by
the same customer yield exactly one success, the second failing with
"already used". -/
theorem claim_C4_redeem_one_time (db : DB) (code : String) (cid : Int) (c : Coupon)
    (hfind : findCoupon db.coupon_codes code = some c) :
    (cid ∈ c.customer_ids_who_used →
      mark_coupon_used db code cid =
        ({ ok := false, message := "You have already used this coupon." }, db)) ∧
    (cid ∉ c.customer_ids_who_used →
      ¬(c.max_uses_total > 0 ∧ c.uses_total ≥ c.max_uses_total) →
      (mark_coupon_used db code cid).1.ok = true ∧
      findCoupon (mark_coupon_used db code cid).2.coupon_codes code =
        some { c with
          customer_ids_who_used := c.customer_ids_who_used ++ [cid],
          uses_total := c.uses_total + 1 }) ∧
    (c.max_uses_total = 0 → cid ∉ c.customer_ids_who_used →
      (mark_coupon_used db code cid).1.ok = true ∧
      (mark_coupon_used (mark_coupon_used db code cid).2 code cid).1 =
        { ok := false, message := "You have already used this coupon." } ∧
      (mark_coupon_used (mark_coupon_used db code cid).2 code cid).2 =
        (mark_coupon_used db code cid).2) := by
  have hcode : c.code = code := findCoupon_code hfind
  have hcode' : ({ c with
      customer_ids_who_used := c.customer_ids_who_used ++ [cid],
      uses_total := c.uses_total + 1 } : Coupon).code = code := hcode
  refine ⟨?_, ?_, ?_⟩
  · intro hmem
    unfold mark_coupon_used
    rw [hfind]
    dsimp only
    rw [if_pos hmem]
  · intro hmem hmax
    have hstep : mark_coupon_used db code cid =
        ({ ok := true, message := "Coupon redeemed." },
          { db with coupon_codes := (replaceCouponFirst db.coupon_codes code
              { c with
                customer_ids_who_used := c.customer_ids_who_used ++ [cid],
                uses_total := c.uses_total + 1 }) }) := by
      unfold mark_coupon_used
      rw [hfind]
      dsimp only
      rw [if_neg hmem, if_neg hmax]
    rw [hstep]
    exact ⟨rfl, findCoupon_replace hcode' hfind⟩
  · intro hmax hmem
    have hnmax : ¬(c.max_uses_total > 0 ∧ c.uses_total ≥ c.max_uses_total) := by
      rw [hmax]
      exact fun hcontra => lt_irrefl 0 hcontra.1
    have hstep : mark_coupon_used db code cid =
        ({ ok := true, message := "Coupon redeemed." },
          { db with coupon_codes := (replaceCouponFirst db.coupon_codes code
              { c with
                customer_ids_who_used := c.customer_ids_who_used ++ [cid],
                uses_total := c.uses_total + 1 }) }) := by
      unfold mark_coupon_used
      rw [hfind]
      dsimp only
      rw [if_neg hmem, if_neg hnmax]
    have hfind2 : findCoupon (replaceCouponFirst db.coupon_codes code
        { c with
          customer_ids_who_used := c.customer_ids_who_used ++ [cid],
          uses_total := c.uses_total + 1 }) code =
        some { c with
          customer_ids_who_used := c.customer_ids_who_used ++ [cid],
          uses_total := c.uses_total + 1 } := findCoupon_replace hcode' hfind
    have hmem2 : cid ∈ c.customer_ids_who_used ++ [cid] := by simp
    rw [hstep]
    refine ⟨rfl, ?_, ?_⟩
    · unfold mark_coupon_used
      rw [hfind2]
      dsimp only
      rw [if_pos hmem2]
    · unfold mark_coupon_used
      rw [hfind2]
      dsimp only
      rw [if_pos hmem2]

/-- Witness for C4 on the fresh fixture coupon. -/
theorem claim_C4_witness :
    findCoupon dbC4.coupon_codes "SAVE10" = some baseCoupon ∧
    (baseCoupon.max_uses_total = 0 → (7 : Int) ∉ baseCoupon.customer_ids_who_used →
      (mark_coupon_used dbC4 "SAVE10" 7).1.ok = true ∧
      (mark_coupon_used (mark_coupon_used dbC4 "SAVE10" 7).2 "SAVE10" 7).1 =
        { ok := false, message := "You have already used this coupon." } ∧
      (mark_coupon_used (mark_coupon_used dbC4 "SAVE10" 7).2 "SAVE10" 7).2 =
        (mark_coupon_used dbC4 "SAVE10" 7).2) :=
  ⟨rfl, (claim_C4_redeem_one_time dbC4 "SAVE10" 7 baseCoupon rfl).2.2⟩

/-- Updating the status of the found transaction is visible through
`findTx`. -/
theorem findTx_setTxStatusFirst {l : List TransactionLog} {tid : String}
    {t : TransactionLog} (s : String) (h : findTx l tid = some t) :
    findTx (setTxStatusFirst l tid s).2 tid = some { t with status := s } := by
  induction l with
  | nil => simp [findTx] at h
  | cons x rest ih =>
    by_cases hx : x.transaction_id = tid
    · rw [findTx, if_pos hx] at h
      cases h
      rw [setTxStatusFirst, if_pos hx]
      dsimp only
      rw [findTx, if_pos hx]
    · rw [findTx, if_neg hx] at h
      rw [setTxStatusFirst, if_neg hx]
      dsimp only
      rw [findTx, if_neg hx]
      exact ih h

/-- C9.  A successful transition to `delivered` of a COD order with an
attached transaction id marks the linked TransactionLog `succeeded`; for
an `online` order the same transition leaves the transaction logs
untouched; and the transition succeeds regardless of the transaction
update (including when the transaction store raises, `db.tx_fault`). -/
theorem claim_C9_cod_delivery_reconciliation (db : DB) (oid : Int) (o : Order)
    (tid : String) (t : TransactionLog) (msg : String) (now : Int)
    (hfind : findOrder db.orders oid = some o)
    (hstat : pyStrip (pyStrOr o.order_status "pending") = "out_for_delivery") :
    ((update_order_status_with_message db oid "delivered" msg now).1.ok = true) ∧
    (pyStrip o.payment_method = "cod" → o.payment_transaction_id = some tid →
      pyStrip tid ≠ "" → db.tx_fault = false →
      findTx db.transaction_logs (pyStrip tid) = some t →
      findTx (update_order_status_with_message db oid "delivered" msg now).2.transaction_logs
        (pyStrip tid) = some { t with status := "succeeded" }) ∧
    (pyStrip o.payment_method = "online" →
      (update_order_status_with_message db oid "delivered" msg now).2.transaction_logs =
        db.transaction_logs) := by
  have hv : pyStrip "delivered" ∈ OPEN_STATUSES ∨ pyStrip "delivered" ∈ CLOSED_STATUSES := by
    right; decide
  have hc : can_transition_order_status (pyStrip (pyStrOr o.order_status "pending"))
      (pyStrip "delivered") = true := by
    rw [hstat]; decide
  rw [update_success db oid o "delivered" msg now hv hfind hc]
  have hlit : pyStrip "delivered" = "delivered" := rfl
  refine ⟨rfl, ?_, ?_⟩
  · intro hpm hptid htid hfault hfindtx
    have htid0 : tid ≠ "" := by
      intro h0
      rw [h0] at htid
      exact htid rfl
    unfold updatedStore codDeliveredSideEffect
    rw [hlit, hptid]
    have hopt : pyOptStrOr (some tid) "" = tid := by
      unfold pyOptStrOr pyStrOr
      dsimp only
      rw [if_neg htid0]
    rw [hopt, hpm]
    rw [if_pos ⟨rfl, rfl, htid⟩]
    have hfault1 : ({ db with
        orders := replaceOrderFirst db.orders oid
          (applyTransition o "delivered" msg now) } : DB).tx_fault = false := hfault
    rw [hfault1]
    dsimp only
    unfold update_transaction_status_by_transaction_id
    rw [pyStrip_idem, if_neg htid]
    dsimp only
    exact findTx_setTxStatusFirst "succeeded" hfindtx
  · intro hpm
    unfold updatedStore codDeliveredSideEffect
    rw [hlit, hpm]
    rw [if_neg (by
      intro hcontra
      exact absurd hcontra.2.1 (by decide))]

/-- An order found by id carries that id. -/
theorem findOrder_id {l : List Order} {oid : Int} {o : Order}
    (h : findOrder l oid = some o) : o.order_id = oid := by
  induction l with
  | nil => simp [findOrder] at h
  | cons x rest ih =>
    by_cases hx : x.order_id = oid
    · rw [findOrder, if_pos hx] at h
      cases h
      exact hx
    · rw [findOrder, if_neg hx] at h
      exact ih h

/-- Replacing the (found) order makes the replacement the lookup result,
provided the replacement keeps the id. -/
theorem findOrder_replaceFirst {l : List Order} {oid : Int} {o o' : Order}
    (ho' : o'.order_id = oid) (h : findOrder l oid = some o) :
    findOrder (replaceOrderFirst l oid o') oid = some o' := by
  induction l with
  | nil => simp [findOrder] at h
  | cons x rest ih =>
    by_cases hx : x.order_id = oid
    · rw [replaceOrderFirst, if_pos hx, findOrder, if_pos ho']
    · rw [replaceOrderFirst, if_neg hx, findOrder, if_neg hx]
      rw [findOrder, if_neg hx] at h
      exact ih h

/-- The COD-delivery side effect never touches the orders collection. -/
theorem codDeliveredSideEffect_orders (db1 : DB) (o : Order) (ns : String) :
    (codDeliveredSideEffect db1 o ns).orders = db1.orders := by
  unfold codDeliveredSideEffect update_transaction_status_by_transaction_id
  dsimp only
  split_ifs <;> rfl

/-- `setStatusTimestamp` changes no field except the five lifecycle
timestamps. -/
theorem setStatusTimestamp_notes (o : Order) (ns : String) (now : Int) :
    (setStatusTimestamp o ns now).notes = o.notes ∧
    (setStatusTimestamp o ns now).order_status = o.order_status := by
  unfold setStatusTimestamp
  split_ifs <;> exact ⟨rfl, rfl⟩

/-- `applyTransition` leaves every non-status, non-timestamp, non-notes
field of the order unchanged. -/
theorem applyTransition_frame (o : Order) (ns msg : String) (now : Int) :
    (applyTransition o ns msg now).order_id = o.order_id ∧
    (applyTransition o ns msg now).customer_id = o.customer_id ∧
    (applyTransition o ns msg now).items = o.items ∧
    (applyTransition o ns msg now).subtotal = o.subtotal ∧
    (applyTransition o ns msg now).discount_amount = o.discount_amount ∧
    (applyTransition o ns msg now).discounted_subtotal = o.discounted_subtotal ∧
    (applyTransition o ns msg now).tax = o.tax ∧
    (applyTransition o ns msg now).shipping_fee = o.shipping_fee ∧
    (applyTransition o ns msg now).total = o.total ∧
    (applyTransition o ns msg now).coupon_code = o.coupon_code ∧
    (applyTransition o ns msg now).payment_method = o.payment_method ∧
    (applyTransition o ns msg now).payment_transaction_id = o.payment_transaction_id ∧
    (applyTransition o ns msg now).shipping_address = o.shipping_address ∧
    (applyTransition o ns msg now).ordered_at = o.ordered_at := by
  unfold applyTransition setStatusTimestamp
  dsimp only
  split_ifs <;>
    exact ⟨rfl, rfl, rfl, rfl, rfl, rfl, rfl, rfl, rfl, rfl, rfl, rfl, rfl, rfl⟩

/-- `applyTransition` writes the new status. -/
theorem applyTransition_status (o : Order) (ns msg : String) (now : Int) :
    (applyTransition o ns msg now).order_status = ns := by
  unfold applyTransition setStatusTimestamp
  dsimp only
  split_ifs <;> rfl

/-- `applyTransition` writes the notes only for a non-whitespace admin
message, in which case it writes the appended audit block. -/
theorem applyTransition_notes (o : Order) (ns msg : String) (now : Int) :
    (pyStrip msg = "" → (applyTransition o ns msg now).notes = o.notes) ∧
    (pyStrip msg ≠ "" → (applyTransition o ns msg now).notes =
      some (appendAdminNotes o.notes ns (pyStrip msg) now)) := by
  constructor
  · intro h
    unfold applyTransition
    dsimp only
    rw [if_neg (not_not_intro h)]
    exact (setStatusTimestamp_notes _ _ _).1
  · intro h
    unfold applyTransition
    dsimp only
    rw [if_pos h]

/-- `applyTransition` sets exactly the timestamp field of the new
status, preserving the other four. -/
theorem applyTransition_ts (o : Order) (ns msg : String) (now : Int) :
    (ns = "confirmed" →
      (applyTransition o ns msg now).confirmed_at = some now ∧
      (applyTransition o ns msg now).packed_at = o.packed_at ∧
      (applyTransition o ns msg now).out_for_delivery_at = o.out_for_delivery_at ∧
      (applyTransition o ns msg now).delivered_at = o.delivered_at ∧
      (applyTransition o ns msg now).canceled_at = o.canceled_at) ∧
    (ns = "packed" →
      (applyTransition o ns msg now).packed_at = some now ∧
      (applyTransition o ns msg now).confirmed_at = o.confirmed_at ∧
      (applyTransition o ns msg now).out_for_delivery_at = o.out_for_delivery_at ∧
      (applyTransition o ns msg now).delivered_at = o.delivered_at ∧
      (applyTransition o ns msg now).canceled_at = o.canceled_at) ∧
    (ns = "out_for_delivery" →
      (applyTransition o ns msg now).out_for_delivery_at = some now ∧
      (applyTransition o ns msg now).confirmed_at = o.confirmed_at ∧
      (applyTransition o ns msg now).packed_at = o.packed_at ∧
      (applyTransition o ns msg now).delivered_at = o.delivered_at ∧
      (applyTransition o ns msg now).canceled_at = o.canceled_at) ∧
    (ns = "delivered" →
      (applyTransition o ns msg now).delivered_at = some now ∧
      (applyTransition o ns msg now).confirmed_at = o.confirmed_at ∧
      (applyTransition o ns msg now).packed_at = o.packed_at ∧
      (applyTransition o ns msg now).out_for_delivery_at = o.out_for_delivery_at ∧
      (applyTransition o ns msg now).canceled_at = o.canceled_at) ∧
    (ns = "canceled" →
      (applyTransition o ns msg now).canceled_at = some now ∧
      (applyTransition o ns msg now).confirmed_at = o.confirmed_at ∧
      (applyTransition o ns msg now).packed_at = o.packed_at ∧
      (applyTransition o ns msg now).out_for_delivery_at = o.out_for_delivery_at ∧
      (applyTransition o ns msg now).delivered_at = o.delivered_at) := by
  refine ⟨?_, ?_, ?_, ?_, ?_⟩ <;> intro h <;> subst h <;>
    unfold applyTransition setStatusTimestamp <;> dsimp only <;> split_ifs <;> simp_all

/-- A string is a prefix of itself extended on the right. -/
theorem pyIsPrefix_append (a b : String) : pyIsPrefix a (a ++ b) = true := by
  unfold pyIsPrefix
  rw [String.data_append]
  exact List.isPrefixOf_iff_prefix.mpr (List.prefix_append _ _)

/-- C10 counterexample: transitioning the fixture order (prior notes
`"hello "`, trailing space) to `out_for_delivery` with a message
succeeds, but the resulting notes do not contain the prior notes
verbatim — `rstrip` dropped the trailing space, so `"hello "` is not a
prefix of the stored notes, refuting "all prior notes text preserved
verbatim". -/
theorem claim_C10_counterexample :
    (update_order_status_with_message dbC10 1 "out_for_delivery" "on the way" 3).1.ok = true ∧
    ((update_order_status_with_message dbC10 1 "out_for_delivery" "on the way" 3).2.orders.map
      Order.notes) =
      [some "hello\n\n[ADMIN OUT_FOR_DELIVERY @ 3 UTC]\non the way"] ∧
    pyIsPrefix "hello " "hello\n\n[ADMIN OUT_FOR_DELIVERY @ 3 UTC]\non the way" = false := by
  exact ⟨rfl, rfl, by decide⟩

/-- C10 (amended).  Every successful transition sets `order_status`,
exactly the one timestamp of the new status (the other four and
`ordered_at` keep their prior values), and the notes only when the admin
message has non-whitespace content — in which case the stored notes are
the prior notes with trailing whitespace stripped, a blank line, and the
status-tagged block (so the trailing-whitespace-stripped prior notes
remain a verbatim prefix); every other order field is unchanged. -/
theorem claim_C10_success_frame (db : DB) (oid : Int) (o : Order) (ns msg : String)
    (now : Int) (hfind : findOrder db.orders oid = some o)
    (hc : can_transition_order_status (pyStrip (pyStrOr o.order_status "pending"))
      (pyStrip ns) = true) :
    (update_order_status_with_message db oid ns msg now).1.ok = true ∧
    ∃ o' : Order,
      findOrder (update_order_status_with_message db oid ns msg now).2.orders oid =
        some o' ∧
      o'.order_status = pyStrip ns ∧
      tsOf o' (pyStrip ns) = some now ∧
      (∀ s ∈ ["confirmed", "packed", "out_for_delivery", "delivered", "canceled"],
        s ≠ pyStrip ns → tsOf o' s = tsOf o s) ∧
      o'.ordered_at = o.ordered_at ∧
      (pyStrip msg = "" → o'.notes = o.notes) ∧
      (pyStrip msg ≠ "" →
        o'.notes = some (appendAdminNotes o.notes (pyStrip ns) (pyStrip msg) now) ∧
        (pyStrip (o.notes.getD "") ≠ "" →
          pyIsPrefix (pyRstrip (o.notes.getD "") ++ "\n\n")
            (appendAdminNotes o.notes (pyStrip ns) (pyStrip msg) now) = true)) ∧
      o'.order_id = o.order_id ∧ o'.customer_id = o.customer_id ∧ o'.items = o.items ∧
      o'.subtotal = o.subtotal ∧ o'.discount_amount = o.discount_amount ∧
      o'.discounted_subtotal = o.discounted_subtotal ∧ o'.tax = o.tax ∧
      o'.shipping_fee = o.shipping_fee ∧ o'.total = o.total ∧
      o'.coupon_code = o.coupon_code ∧ o'.payment_method = o.payment_method ∧
      o'.payment_transaction_id = o.payment_transaction_id ∧
      o'.shipping_address = o.shipping_address := by
  have hmem := (can_transition_strip_iff (pyStrOr o.order_status "pending") ns).mp hc
  have hv := mem_allowed_valid hmem
  rw [update_success db oid o ns msg now hv hfind hc]
  refine ⟨rfl, applyTransition o (pyStrip ns) msg now, ?_, ?_, ?_, ?_,
    (applyTransition_frame o (pyStrip ns) msg now).2.2.2.2.2.2.2.2.2.2.2.2.2,
    (applyTransition_notes o (pyStrip ns) msg now).1, ?_,
    (applyTransition_frame o (pyStrip ns) msg now).1,
    (applyTransition_frame o (pyStrip ns) msg now).2.1,
    (applyTransition_frame o (pyStrip ns) msg now).2.2.1,
    (applyTransition_frame o (pyStrip ns) msg now).2.2.2.1,
    (applyTransition_frame o (pyStrip ns) msg now).2.2.2.2.1,
    (applyTransition_frame o (pyStrip ns) msg now).2.2.2.2.2.1,
    (applyTransition_frame o (pyStrip ns) msg now).2.2.2.2.2.2.1,
    (applyTransition_frame o (pyStrip ns) msg now).2.2.2.2.2.2.2.1,
    (applyTransition_frame o (pyStrip ns) msg now).2.2.2.2.2.2.2.2.1,
    (applyTransition_frame o (pyStrip ns) msg now).2.2.2.2.2.2.2.2.2.1,
    (applyTransition_frame o (pyStrip ns) msg now).2.2.2.2.2.2.2.2.2.2.1,
    (applyTransition_frame o (pyStrip ns) msg now).2.2.2.2.2.2.2.2.2.2.2.1,
    (applyTransition_frame o (pyStrip ns) msg now).2.2.2.2.2.2.2.2.2.2.2.2.1⟩
  · unfold updatedStore
    rw [codDeliveredSideEffect_orders]
    exact findOrder_replaceFirst
      (((applyTransition_frame o (pyStrip ns) msg now).1).trans (findOrder_id hfind)) hfind
  · exact applyTransition_status o (pyStrip ns) msg now
  · set A := applyTransition o (pyStrip ns) msg now with hA
    rcases mem_allowed_targets hmem with h5 | h5 | h5 | h5 | h5 <;> rw [h5] <;>
      simp only [tsOf] <;> norm_num <;> rw [hA]
    · exact ((applyTransition_ts o (pyStrip ns) msg now).1 h5).1
    · exact ((applyTransition_ts o (pyStrip ns) msg now).2.2.2.2 h5).1
    · exact ((applyTransition_ts o (pyStrip ns) msg now).2.1 h5).1
    · exact ((applyTransition_ts o (pyStrip ns) msg now).2.2.1 h5).1
    · exact ((applyTransition_ts o (pyStrip ns) msg now).2.2.2.1 h5).1
  · intro s hs hne
    set A := applyTransition o (pyStrip ns) msg now with hA
    rcases mem_allowed_targets hmem with h5 | h5 | h5 | h5 | h5 <;>
      rw [h5] at hne <;> fin_cases hs <;> simp only [tsOf] <;> norm_num <;>
      try rw [hA]
    all_goals
      first
        | exact absurd rfl hne
        | exact ((applyTransition_ts o (pyStrip ns) msg now).1 h5).2.1
        | exact ((applyTransition_ts o (pyStrip ns) msg now).1 h5).2.2.1
        | exact ((applyTransition_ts o (pyStrip ns) msg now).1 h5).2.2.2.1
        | exact ((applyTransition_ts o (pyStrip ns) msg now).1 h5).2.2.2.2
        | exact ((applyTransition_ts o (pyStrip ns) msg now).2.1 h5).2.1
        | exact ((applyTransition_ts o (pyStrip ns) msg now).2.1 h5).2.2.1
        | exact ((applyTransition_ts o (pyStrip ns) msg now).2.1 h5).2.2.2.1
        | exact ((applyTransition_ts o (pyStrip ns) msg now).2.1 h5).2.2.2.2
        | exact ((applyTransition_ts o (pyStrip ns) msg now).2.2.1 h5).2.1
        | exact ((applyTransition_ts o (pyStrip ns) msg now).2.2.1 h5).2.2.1
        | exact ((applyTransition_ts o (pyStrip ns) msg now).2.2.1 h5).2.2.2.1
        | exact ((applyTransition_ts o (pyStrip ns) msg now).2.2.1 h5).2.2.2.2
        | exact ((applyTransition_ts o (pyStrip ns) msg now).2.2.2.1 h5).2.1
        | exact ((applyTransition_ts o (pyStrip ns) msg now).2.2.2.1 h5).2.2.1
        | exact ((applyTransition_ts o (pyStrip ns) msg now).2.2.2.1 h5).2.2.2.1
        | exact ((applyTransition_ts o (pyStrip ns) msg now).2.2.2.1 h5).2.2.2.2
        | exact ((applyTransition_ts o (pyStrip ns) msg now).2.2.2.2 h5).2.1
        | exact ((applyTransition_ts o (pyStrip ns) msg now).2.2.2.2 h5).2.2.1
        | exact ((applyTransition_ts o (pyStrip ns) msg now).2.2.2.2 h5).2.2.2.1
        | exact ((applyTransition_ts o (pyStrip ns) msg now).2.2.2.2 h5).2.2.2.2
  · intro hmsg
    refine ⟨(applyTransition_notes o (pyStrip ns) msg now).2 hmsg, ?_⟩
    intro hprev
    unfold appendAdminNotes
    dsimp only
    rw [if_pos hprev]
    exact pyIsPrefix_append _ _

/-- Witness for C10: the fixture packed order with a message. -/
theorem claim_C10_witness :
    findOrder dbC10.orders 1 = some orderC10 ∧
    (update_order_status_with_message dbC10 1 "out_for_delivery" "m" 3).1.ok = true :=
  ⟨rfl,
    (claim_C10_success_frame dbC10 1 orderC10 "out_for_delivery" "m" 3 rfl
      (by decide)).1⟩

/-- Witness for C9: the fixture COD order out for delivery. -/
theorem claim_C9_witness :
    findOrder dbC9.orders 1 = some orderC9 ∧
    findTx (update_order_status_with_message dbC9 1 "delivered" "" 9).2.transaction_logs
      (pyStrip "t-1") = some { txC9 with status := "succeeded" } :=
  ⟨rfl,
    (claim_C9_cod_delivery_reconciliation dbC9 1 orderC9 "t-1" txC9 "" 9 rfl rfl).2.1
      rfl rfl (by decide) rfl rfl⟩

theorem roundHalfEven_intCast (n : ℤ) : roundHalfEven (n : ℚ) = n := by
  unfold roundHalfEven
  rw [Int.floor_intCast, sub_self]
  norm_num

theorem round2_of_mul_eq_intCast {q : ℚ} {n : ℤ} (h : q * 100 = (n : ℚ)) :
    round2 q = (n : ℚ) / 100 := by
  unfold round2
  rw [h, roundHalfEven_intCast]

/-- C2.  The source `compute_totals` takes only `(subtotal,
discount_amount)` — no `shipping_fee` parameter — and its `total` omits
the shipping fee: at the spec's example `(100, 20, 5)` the source
function can only be applied to `(100, 20)` and yields `total = 84.80`,
not the `89.80` the claim requires, while the spec-modelled calculator
yields `89.80`.  The clamping example `(50, 999, 0)` agrees on every
field because the shipping fee there is `0`. -/
theorem claim_C2_compute_totals_shipping_fee_missing :
    compute_totals 100 20 =
      { subtotal := 100, discount_amount := 20, discounted_subtotal := 80,
        tax := 4.8, total := 84.8 } ∧
    compute_totals_spec 100 20 5 =
      { subtotal := 100, discount_amount := 20, discounted_subtotal := 80,
        tax := 4.8, shipping_fee := 5, total := 89.8 } ∧
    (84.8 : ℚ) ≠ 89.8 ∧
    compute_totals 50 999 =
      { subtotal := 50, discount_amount := 50, discounted_subtotal := 0,
        tax := 0, total := 0 } := by
  have e100 : round2 (100 : ℚ) = 100 := by
    rw [round2_of_mul_eq_intCast (n := 10000) (by norm_num)]; norm_num
  have e20 : round2 (20 : ℚ) = 20 := by
    rw [round2_of_mul_eq_intCast (n := 2000) (by norm_num)]; norm_num
  have e80 : round2 (80 : ℚ) = 80 := by
    rw [round2_of_mul_eq_intCast (n := 8000) (by norm_num)]; norm_num
  have e48 : round2 ((4.8 : ℚ)) = 4.8 := by
    rw [round2_of_mul_eq_intCast (n := 480) (by norm_num)]; norm_num
  have e848 : round2 ((84.8 : ℚ)) = 84.8 := by
    rw [round2_of_mul_eq_intCast (n := 8480) (by norm_num)]; norm_num
  have e898 : round2 ((89.8 : ℚ)) = 89.8 := by
    rw [round2_of_mul_eq_intCast (n := 8980) (by norm_num)]; norm_num
  have e5 : round2 (5 : ℚ) = 5 := by
    rw [round2_of_mul_eq_intCast (n := 500) (by norm_num)]; norm_num
  have e50 : round2 (50 : ℚ) = 50 := by
    rw [round2_of_mul_eq_intCast (n := 5000) (by norm_num)]; norm_num
  have e0 : round2 (0 : ℚ) = 0 := by
    rw [round2_of_mul_eq_intCast (n := 0) (by norm_num)]; norm_num
  refine ⟨?_, ?_, by norm_num, ?_⟩
  · unfold compute_totals
    rw [show max (0:ℚ) 100 = 100 by norm_num, show max (0:ℚ) 20 = 20 by norm_num]
    dsimp only
    rw [if_neg (by norm_num : ¬ (20:ℚ) > 100)]
    rw [show (100:ℚ) - 20 = 80 by norm_num,
        show (80:ℚ) * TAX_RATE_MD = 4.8 by norm_num [TAX_RATE_MD],
        show (80:ℚ) + 4.8 = 84.8 by norm_num]
    rw [e100, e20, e80, e48, e848]
  · unfold compute_totals_spec
    rw [show max (0:ℚ) 100 = 100 by norm_num, show max (0:ℚ) 20 = 20 by norm_num]
    dsimp only
    rw [show (20:ℚ) ⊓ 100 = 20 by norm_num]
    rw [show (100:ℚ) - 20 = 80 by norm_num,
        show (80:ℚ) * TAX_RATE_MD = 4.8 by norm_num [TAX_RATE_MD],
        show (80:ℚ) + 4.8 + 5 = 89.8 by norm_num]
    rw [e100, e20, e80, e48, e898, e5]
  · unfold compute_totals
    rw [show max (0:ℚ) 50 = 50 by norm_num, show max (0:ℚ) 999 = 999 by norm_num]
    dsimp only
    rw [if_pos (by norm_num : (999:ℚ) > 50)]
    rw [show (50:ℚ) - 50 = 0 by norm_num,
        show (0:ℚ) * TAX_RATE_MD = 0 by norm_num,
        show (0:ℚ) + 0 = 0 by norm_num]
    rw [e50, e0]

/-- Attaching a transaction id never changes the number of orders. -/
theorem attachTxToFirst_length (l : List Order) (oid : Int) (tid : String) :
    (attachTxToFirst l oid tid).length = l.length := by
  induction l with
  | nil => rfl
  | cons x rest ih =>
    rw [attachTxToFirst]
    split_ifs <;> simp [ih]

/-- `countStripeTx` distributes over append. -/
theorem countStripeTx_append (l₁ l₂ : List TransactionLog) (piv : String) :
    countStripeTx (l₁ ++ l₂) piv = countStripeTx l₁ piv + countStripeTx l₂ piv := by
  induction l₁ with
  | nil => simp [countStripeTx]
  | cons x rest ih =>
    rw [List.cons_append, countStripeTx, countStripeTx, ih]
    ring

/-- A list with no dedup-key match contains no matching log. -/
theorem findStripeTx_none_forall {l : List TransactionLog} {piv : String}
    (h : findStripeTx l piv = none) :
    ∀ t ∈ l, ¬(t.provider = some "stripe" ∧ t.provider_payment_intent_id = some piv) := by
  induction l with
  | nil => intro t ht; simp at ht
  | cons x rest ih =>
    intro t ht
    rw [findStripeTx] at h
    split_ifs at h with hx
    intro hcontra
    rcases List.mem_cons.mp ht with rfl | hmem
    · exact hx hcontra
    · exact ih h t hmem hcontra

/-- With no dedup-key match, `countStripeTx` is zero. -/
theorem countStripeTx_zero {l : List TransactionLog} {piv : String}
    (h : findStripeTx l piv = none) : countStripeTx l piv = 0 := by
  induction l with
  | nil => rfl
  | cons x rest ih =>
    rw [findStripeTx] at h
    split_ifs at h with hx
    rw [countStripeTx, if_neg hx, ih h]

/-- Finding the dedup key in an extended list skips an unmatched
prefix. -/
theorem findStripeTx_append_of_none {l₁ : List TransactionLog} {piv : String}
    (h : findStripeTx l₁ piv = none) (l₂ : List TransactionLog) :
    findStripeTx (l₁ ++ l₂) piv = findStripeTx l₂ piv := by
  induction l₁ with
  | nil => rfl
  | cons x rest ih =>
    rw [findStripeTx] at h
    split_ifs at h with hx
    rw [List.cons_append, findStripeTx, if_neg hx, ih h]

/-- The webhook body acknowledges with 200/"ok" on every path. -/
theorem handle_event_resp (db : DB) (ev : Event) (now : Int) :
    (handle_event db ev now).2 = ok200 := by
  unfold handle_event
  split
  · split
    · rfl
    · dsimp only
      split
      · rfl
      · split
        · rfl
        · split
          · rfl
          · split
            · rfl
            · rfl
  · rfl

/-- Replay of an event whose dedup key is already present changes
nothing and acknowledges. -/
theorem handle_event_dedup (db : DB) (cid : Int) (piv : String) (now : Int)
    (t : TransactionLog) (h : findStripeTx db.transaction_logs piv = some t) :
    handle_event db (completedEvent cid piv) now = (db, ok200) := by
  unfold handle_event completedEvent
  dsimp only
  rw [if_pos rfl]
  by_cases hg : cid = 0 ∨ pyFalsyOptStr (some piv) = true
  · rw [if_pos hg]
  · rw [if_neg hg]
    dsimp only [Option.getD]
    rw [h]

/-- An event for a customer with no draft changes nothing and
acknowledges. -/
theorem handle_event_no_draft (db : DB) (cid : Int) (piv : String) (now : Int)
    (h : lookupDraft db.checkout_drafts cid = none) :
    handle_event db (completedEvent cid piv) now = (db, ok200) := by
  unfold handle_event completedEvent
  dsimp only
  rw [if_pos rfl]
  by_cases hg : cid = 0 ∨ pyFalsyOptStr (some piv) = true
  · rw [if_pos hg]
  · rw [if_neg hg]
    dsimp only [Option.getD]
    cases htx : findStripeTx db.transaction_logs piv with
    | some t => rfl
    | none =>
      dsimp only
      rw [h]

/-- The coupon step touches only the coupon collection. -/
theorem coupon_step_frame (db : DB) (d : Draft) (cid : Int) :
    (coupon_step db d cid).2.orders = db.orders ∧
    (coupon_step db d cid).2.transaction_logs = db.transaction_logs ∧
    (coupon_step db d cid).2.checkout_drafts = db.checkout_drafts ∧
    (coupon_step db d cid).2.carts = db.carts ∧
    (coupon_step db d cid).2.counters = db.counters ∧
    (coupon_step db d cid).2.tx_counter = db.tx_counter := by
  unfold coupon_step
  dsimp only
  split_ifs
  · exact ⟨rfl, rfl, rfl, rfl, rfl, rfl⟩
  · have h := mark_coupon_used_frame db (pyUpper (pyStrip (d.coupon_code.getD ""))) cid
    exact ⟨h.1, h.2.1, h.2.2.1, h.2.2.2.1, h.2.2.2.2.1, h.2.2.2.2.2.1⟩

/-- The materialization tail appends exactly one order and exactly one
`succeeded` stripe transaction log keyed by the payment intent. -/
theorem materialize_spec (db : DB) (cid : Int) (d : Draft) (piv : String) (now : Int) :
    (materializeFromDraft db cid d piv now).orders.length = db.orders.length + 1 ∧
    ∃ tx : TransactionLog,
      (materializeFromDraft db cid d piv now).transaction_logs =
        db.transaction_logs ++ [tx] ∧
      tx.provider = some "stripe" ∧ tx.provider_payment_intent_id = some piv ∧
      tx.status = "succeeded" := by
  constructor
  · unfold materializeFromDraft delete_checkout_draft empty_cart
      attach_transaction_to_order create_transaction_log create_order_from_draft
      next_sequence
    dsimp only
    rw [attachTxToFirst_length, List.length_append]
    rfl
  · exact ⟨_, rfl, rfl, rfl, rfl⟩

/-- The run of the webhook body on a deliverable event: happy path. -/
theorem handle_event_happy (db : DB) (cid : Int) (piv : String) (d : Draft) (now : Int)
    (hcid : cid ≠ 0) (hpi : piv ≠ "")
    (hnodup : findStripeTx db.transaction_logs piv = none)
    (hdraft : lookupDraft db.checkout_drafts cid = some d)
    (hsa : pyFalsyOptStr d.shipping_address = false)
    (hcoupon : (coupon_step db d cid).1 = true) :
    handle_event db (completedEvent cid piv) now =
      (materializeFromDraft (coupon_step db d cid).2 cid d piv now, ok200) := by
  have hg : ¬(cid = 0 ∨ pyFalsyOptStr (some piv) = true) := by
    rintro (h | h)
    · exact hcid h
    · exact hpi (by simpa [pyFalsyOptStr] using h)
  unfold handle_event completedEvent
  dsimp only
  rw [if_pos rfl, if_neg hg]
  dsimp only [Option.getD]
  rw [hnodup]
  dsimp only
  rw [hdraft]
  dsimp only
  rw [if_neg (by rw [hsa]; exact Bool.false_ne_true)]
  rw [if_neg (by rw [hcoupon]; exact fun hcontra => Bool.noConfusion hcontra)]

/-- C3.  Processing the same completion event N ≥ 1 times creates
exactly one order and exactly one `succeeded` TransactionLog for the
`(stripe, payment_intent)` pair: the first processing appends them, and
every replay finds the existing log, acknowledges, and mutates nothing;
an event for a customer with no checkout draft likewise acknowledges and
mutates nothing. -/
theorem claim_C3_idempotent_completion (db : DB) (cid : Int) (piv : String) (d : Draft)
    (now : Int) (hcid : cid ≠ 0) (hpi : piv ≠ "")
    (hnodup : findStripeTx db.transaction_logs piv = none)
    (hdraft : lookupDraft db.checkout_drafts cid = some d)
    (hsa : pyFalsyOptStr d.shipping_address = false)
    (hcoupon : (coupon_step db d cid).1 = true) :
    (handle_event db (completedEvent cid piv) now).2 = ok200 ∧
    (handle_event db (completedEvent cid piv) now).1.orders.length =
      db.orders.length + 1 ∧
    countStripeTx (handle_event db (completedEvent cid piv) now).1.transaction_logs
      piv = 1 ∧
    (∀ t ∈ (handle_event db (completedEvent cid piv) now).1.transaction_logs,
      t.provider = some "stripe" → t.provider_payment_intent_id = some piv →
      t.status = "succeeded") ∧
    (∀ n : Nat, iterateHandle (completedEvent cid piv) now n
      (handle_event db (completedEvent cid piv) now).1 =
      (handle_event db (completedEvent cid piv) now).1) ∧
    (∀ db9 : DB, lookupDraft db9.checkout_drafts cid = none →
      handle_event db9 (completedEvent cid piv) now = (db9, ok200)) := by
  have hrun := handle_event_happy db cid piv d now hcid hpi hnodup hdraft hsa hcoupon
  have hframe := coupon_step_frame db d cid
  obtain ⟨hlen, tx, hlogs, hp, hpp, hst⟩ :=
    materialize_spec (coupon_step db d cid).2 cid d piv now
  have hlogs' : (handle_event db (completedEvent cid piv) now).1.transaction_logs =
      db.transaction_logs ++ [tx] := by
    rw [hrun]
    dsimp only
    rw [hlogs, hframe.2.1]
  have hfound : findStripeTx
      (handle_event db (completedEvent cid piv) now).1.transaction_logs piv = some tx := by
    rw [hlogs', findStripeTx_append_of_none hnodup, findStripeTx, if_pos ⟨hp, hpp⟩]
  refine ⟨by rw [hrun], ?_, ?_, ?_, ?_, ?_⟩
  · rw [hrun]
    dsimp only
    rw [hlen, hframe.1]
  · rw [hlogs', countStripeTx_append, countStripeTx_zero hnodup, countStripeTx,
      if_pos ⟨hp, hpp⟩]
    rfl
  · intro t ht hprov hppid
    rw [hlogs'] at ht
    rcases List.mem_append.mp ht with hmem | hmem
    · exact absurd ⟨hprov, hppid⟩ (findStripeTx_none_forall hnodup t hmem)
    · rw [List.mem_singleton.mp hmem]
      exact hst
  · intro n
    induction n with
    | zero => rfl
    | succ k ih =>
      rw [iterateHandle, handle_event_dedup _ cid piv now tx hfound]
      exact ih
  · intro db9 h9
    exact handle_event_no_draft db9 cid piv now h9

/-- Witness for C3: the fixture draft for customer 7, empty transaction
log, no coupon on the draft. -/
theorem claim_C3_witness :
    ((7 : Int) ≠ 0 ∧ ("pi_1" : String) ≠ "" ∧
      findStripeTx dbC3.transaction_logs "pi_1" = none ∧
      lookupDraft dbC3.checkout_drafts 7 = some baseDraft ∧
      pyFalsyOptStr baseDraft.shipping_address = false ∧
      (coupon_step dbC3 baseDraft 7).1 = true) ∧
    (handle_event dbC3 (completedEvent 7 "pi_1") 0).2 = ok200 ∧
    (handle_event dbC3 (completedEvent 7 "pi_1") 0).1.orders.length =
      dbC3.orders.length + 1 ∧
    countStripeTx (handle_event dbC3 (completedEvent 7 "pi_1") 0).1.transaction_logs
      "pi_1" = 1 :=
  ⟨⟨by decide, by decide, rfl, rfl, rfl, rfl⟩,
    (claim_C3_idempotent_completion dbC3 7 "pi_1" baseDraft 0 (by decide) (by decide)
      rfl rfl rfl rfl).1,
    (claim_C3_idempotent_completion dbC3 7 "pi_1" baseDraft 0 (by decide) (by decide)
      rfl rfl rfl rfl).2.1,
    (claim_C3_idempotent_completion dbC3 7 "pi_1" baseDraft 0 (by decide) (by decide)
      rfl rfl rfl rfl).2.2.1⟩

/-- C5.  At the fixture where customer 7's draft carries coupon
`SAVE10`, already used by customer 7, the webhook body acknowledges
(`200 ok`) but returns before `create_order_from_draft`: no order is
materialized and the store is completely unchanged — the code blocks
order creation on a failed coupon mark, contradicting the spec's "a
failed coupon mark must not block order creation". -/
theorem claim_C5_failed_coupon_blocks_order :
    (handle_event dbC5 evC5 0).2 = ok200 ∧
    (handle_event dbC5 evC5 0).1.orders = [] ∧
    (handle_event dbC5 evC5 0).1 = dbC5 :=
  ⟨rfl, rfl, rfl⟩

/-- C6 counterexample: with the webhook secret configured and a VALID
signature, an internal error raised while processing the event produces
the `500 "webhook error"` response — not a 2xx acknowledgement — because
the single `try/except` wrapping the whole body catches every exception,
not just signature failures. -/
theorem claim_C6_counterexample :
    (stripe_webhook true true true dbC5 evC5 0).2.status = 500 ∧
    ¬((stripe_webhook true true true dbC5 evC5 0).2.status / 100 = 2) := by
  exact ⟨rfl, by decide⟩

/-- C6 (amended).  When the secret is configured and the signature is
valid, the webhook answers 200/"ok" exactly when processing raises no
exception; an internal error raised while processing yields the same
`500 "webhook error"` rejection as a signature failure, and a missing
webhook secret yields a 500 as well. -/
theorem claim_C6_webhook_responses (db db' : DB) (ev ev' : Event) (now : Int)
    (fault : Bool) :
    (stripe_webhook true true false db ev now).2 = ok200 ∧
    (stripe_webhook true false fault db' ev' now).2 =
      { status := 500, body := "webhook error" } ∧
    (stripe_webhook true true true db ev now).2 =
      { status := 500, body := "webhook error" } ∧
    (stripe_webhook false true fault db' ev' now).2 =
      { status := 500, body := "Webhook secret not configured" } := by
  refine ⟨?_, rfl, rfl, rfl⟩
  unfold stripe_webhook
  simp only [Bool.not_true, Bool.false_eq_true, if_false, ite_false]
  exact handle_event_resp db ev now

end IntMarket
